import Mathlib

/-!
Verification of the Credential Guard (the Express `authMiddleware` in
`backend/middleware/authMiddleware.js`) against its specification.

The middleware is embedded shallowly: the `Authorization` header is an
`Option String` (JavaScript `undefined` is `none`; an empty string is falsy,
like `undefined`, under the `!authHeader` check), the response/`req.user`/
`next()` effects are collected in an explicit `MwOutcome` record, and the
external `jsonwebtoken` library is modelled from the specification contract
(signature validity against a shared secret, expiry against a clock,
discriminated error kinds identified by the thrown error's name).
-/

/-- Error kinds thrown by token verification, discriminated in the source by
the error's `name` string: `JsonWebTokenError`, `TokenExpiredError`, or any
other (unexpected) error. -/
inductive VerifyError where
  | jsonWebTokenError
  | tokenExpiredError
  | otherError (msg : String)
deriving DecidableEq, Repr

/-- Decoded token payload: identity fields (key/value pairs) plus the
`exp` (expires-at) temporal claim, as in the spec's data model. -/
structure Claims where
  fields : List (String × String)
  exp : Nat
deriving DecidableEq, Repr

/-- The observable effects of one middleware invocation: the HTTP response
sent (status and `message` body), the identity attached as `req.user`, and
whether `next()` was called to forward to the downstream handler. -/
structure MwOutcome where
  response : Option (Nat × String)
  user : Option Claims
  nextCalled : Bool
deriving DecidableEq, Repr

/-- Removes the first occurrence of `pat` anywhere in `s` (the semantics of
JavaScript `String.prototype.replace(pat, '')` with a string pattern):
scan left to right, and at the first position where `pat` is a prefix of
the remaining input, drop `pat.length` characters. -/
def removeFirst (pat : List Char) : List Char → List Char
  | [] => []
  | c :: cs =>
    if pat.isPrefixOf (c :: cs) then (c :: cs).drop pat.length
    else c :: removeFirst pat cs

/-- `authHeader.replace('Bearer ', '')` from the source: unconditional
first-occurrence removal of the literal `"Bearer "`, not a prefix-gated strip. -/
def stripBearer (h : String) : String :=
  ⟨removeFirst "Bearer ".data h.data⟩

/-- Whether `pat` occurs as a contiguous substring of `s`. Used only to state
hypotheses about headers; the middleware itself never computes this. -/
def hasSubstr (pat : List Char) : List Char → Bool
  | [] => pat.isPrefixOf []
  | c :: cs => pat.isPrefixOf (c :: cs) || hasSubstr pat cs

/-- The characters of the stripped literal `"Bearer "`. -/
def bearerL : List Char := ['B', 'e', 'a', 'r', 'e', 'r', ' ']

/-- The `catch`/success tail of the middleware: on a decoded payload set
`req.user` and call `next()`; on `JsonWebTokenError` respond 401
"Invalid token."; on `TokenExpiredError` respond 401 "Token expired.";
on any other error respond 500. -/
def applyVerify : Except VerifyError Claims → MwOutcome
  | .ok decoded => ⟨none, some decoded, true⟩
  | .error .jsonWebTokenError => ⟨some (401, "Access denied. Invalid token."), none, false⟩
  | .error .tokenExpiredError => ⟨some (401, "Access denied. Token expired."), none, false⟩
  | .error (.otherError _) => ⟨some (500, "Server error during authentication."), none, false⟩

/-- The `authMiddleware` of `backend/middleware/authMiddleware.js`,
parameterised by the verification function (`jwt.verify` with the configured
secret and current time baked in). Steps, in source order: the `!authHeader`
falsiness check (absent or empty header), `replace('Bearer ', '')`, the
`!token` falsiness check, then verification with the error discrimination
of the `catch` block. -/
def authMiddleware (authHeader : Option String)
    (verify : String → Except VerifyError Claims) : MwOutcome :=
  match authHeader with
  | none => ⟨some (401, "Access denied. No token provided."), none, false⟩
  | some h =>
    if h = "" then ⟨some (401, "Access denied. No token provided."), none, false⟩
    else
      let token := stripBearer h
      if token = "" then ⟨some (401, "Access denied. Invalid token format."), none, false⟩
      else applyVerify (verify token)

/-! ### Model of the external `jsonwebtoken` library

Modelled from the spec: the token is a compact string carrying an injectively
encoded payload followed by a signature that verifies exactly against the
secret it was signed with (an ideal MAC); `verify` distinguishes signature
failure (`JsonWebTokenError`), expiry (`TokenExpiredError`, when the current
time is not strictly before `expires-at`), and secret misconfiguration
(empty/unset secret), which surfaces as an unexpected error at verify time. -/

/-- Self-delimiting encoding of a natural number (unary digits terminated
by a dot). -/
def encNat : Nat → List Char
  | 0 => ['.']
  | n + 1 => '1' :: encNat n

/-- Decoder for `encNat`, returning the value and the unconsumed rest. -/
def decNat : List Char → Option (Nat × List Char)
  | [] => none
  | c :: rest =>
    if c = '.' then some (0, rest)
    else if c = '1' then
      match decNat rest with
      | none => none
      | some (n, r) => some (n + 1, r)
    else none

/-- Self-delimiting encoding of a character string: dot and backslash are
backslash-escaped, and a final dot terminates. -/
def encChars : List Char → List Char
  | [] => ['.']
  | c :: cs =>
    if c = '\\' ∨ c = '.' then '\\' :: c :: encChars cs
    else c :: encChars cs

/-- Decoder for `encChars`, returning the string and the unconsumed rest. -/
def decChars : List Char → Option (List Char × List Char)
  | [] => none
  | c :: rest =>
    if c = '.' then some ([], rest)
    else if c = '\\' then
      match rest with
      | [] => none
      | d :: rest2 => (decChars rest2).map fun p => (d :: p.1, p.2)
    else (decChars rest).map fun p => (c :: p.1, p.2)

/-- Encoding of the identity fields, one escaped key and value per pair. -/
def encPairs : List (String × String) → List Char
  | [] => []
  | (k, v) :: fs => encChars k.data ++ encChars v.data ++ encPairs fs

/-- Decoder for exactly `n` key/value pairs. -/
def decPairs : Nat → List Char → Option (List (String × String) × List Char)
  | 0, l => some ([], l)
  | n + 1, l =>
    match decChars l with
    | none => none
    | some (k, r1) =>
      match decChars r1 with
      | none => none
      | some (v, r2) =>
        match decPairs n r2 with
        | none => none
        | some (fs, r3) => some ((⟨k⟩, ⟨v⟩) :: fs, r3)

/-- Injective serialisation of a payload: expiry, field count, fields. -/
def encodeClaims (c : Claims) : List Char :=
  encNat c.exp ++ encNat c.fields.length ++ encPairs c.fields

/-- Deserialisation of a payload, returning the claims and the unconsumed
rest of the token (the signature part). -/
def decodeClaims (l : List Char) : Option (Claims × List Char) :=
  match decNat l with
  | none => none
  | some (e, r1) =>
    match decNat r1 with
    | none => none
    | some (n, r2) =>
      match decPairs n r2 with
      | none => none
      | some (fs, r3) => some (⟨fs, e⟩, r3)

/-- Modelled from the spec: `jwt.sign` — the issuer encodes the claims and
appends a signature that depends injectively on the signing secret. -/
def jwtSign (c : Claims) (secret : String) : String :=
  ⟨encodeClaims c ++ secret.data⟩

/-- Modelled from the spec: `jwt.verify token secret now`. An empty/unset
secret is a misconfiguration surfacing as an unexpected error; a token whose
structure does not decode or whose signature does not match the secret fails
with `JsonWebTokenError`; a structurally valid, correctly signed token whose
`expires-at` is not strictly in the future fails with `TokenExpiredError`;
otherwise the decoded claims are returned. -/
def jwtVerify (token : String) (secret : String) (now : Nat) :
    Except VerifyError Claims :=
  if secret = "" then
    .error (.otherError "secret or private key must be provided")
  else
    match decodeClaims token.data with
    | none => .error .jsonWebTokenError
    | some (c, rest) =>
      if rest = secret.data then
        if now < c.exp then .ok c else .error .tokenExpiredError
      else .error .jsonWebTokenError

/-- The middleware with the concrete verification model plugged in: the
whole guard as a function of the header, the configured secret, and the
verification time. -/
def authFull (h : Option String) (secret : String) (now : Nat) : MwOutcome :=
  authMiddleware h (fun t => jwtVerify t secret now)

/-- Two successive invocations on the same input, for the idempotence claim:
the model threads no state between the calls. -/
def runTwice (h : Option String) (secret : String) (now : Nat) :
    MwOutcome × MwOutcome :=
  (authFull h secret now, authFull h secret now)

/-! ### Basic lemmas about the string machinery -/

theorem data_append (a b : String) : (a ++ b).data = a.data ++ b.data := rfl

theorem string_data_inj {a b : String} (h : a.data = b.data) : a = b :=
  congrArg String.mk h

theorem isPrefixOf_append_self (pat rest : List Char) :
    pat.isPrefixOf (pat ++ rest) = true := by
  induction pat with
  | nil => simp
  | cons p ps ih => simp [List.isPrefixOf_cons₂, ih]

theorem removeFirst_head_occurrence (pat rest : List Char) (hp : pat ≠ []) :
    removeFirst pat (pat ++ rest) = rest := by
  match pat with
  | [] => exact absurd rfl hp
  | p :: ps =>
    show removeFirst (p :: ps) (p :: (ps ++ rest)) = rest
    rw [removeFirst]
    rw [show p :: (ps ++ rest) = (p :: ps) ++ rest from rfl]
    rw [isPrefixOf_append_self]
    simp [List.drop_left]

theorem removeFirst_of_not_contains (pat s : List Char)
    (h : hasSubstr pat s = false) : removeFirst pat s = s := by
  induction s with
  | nil => rfl
  | cons c cs ih =>
    rw [hasSubstr, Bool.or_eq_false_iff] at h
    simp [removeFirst, h.1, ih h.2]

theorem string_mk_data (s : String) : (⟨s.data⟩ : String) = s := rfl

theorem decNat_encNat (n : Nat) (r : List Char) :
    decNat (encNat n ++ r) = some (n, r) := by
  induction n with
  | zero => simp [encNat, decNat]
  | succ n ih => simp [encNat, decNat, ih]

theorem decChars_cons (c : Char) (rest : List Char) :
    decChars (c :: rest) =
      if c = '.' then some ([], rest)
      else if c = '\\' then
        match rest with
        | [] => none
        | d :: rest2 => (decChars rest2).map fun p => (d :: p.1, p.2)
      else (decChars rest).map fun p => (c :: p.1, p.2) := by
  rw [decChars.eq_def]

theorem decChars_encChars (s r : List Char) :
    decChars (encChars s ++ r) = some (s, r) := by
  induction s with
  | nil => simp [encChars, decChars_cons]
  | cons c cs ih =>
    by_cases hc : c = '\\' ∨ c = '.'
    · simp [encChars, hc, decChars_cons, ih]
    · push_neg at hc
      simp [encChars, hc, decChars_cons, ih, hc.1, hc.2]

theorem decPairs_encPairs (fs : List (String × String)) (r : List Char) :
    decPairs fs.length (encPairs fs ++ r) = some (fs, r) := by
  induction fs with
  | nil => simp [encPairs, decPairs]
  | cons kv fs ih =>
    obtain ⟨k, v⟩ := kv
    simp [encPairs, decPairs, List.append_assoc, decChars_encChars, ih]

theorem decodeClaims_encodeClaims (c : Claims) (r : List Char) :
    decodeClaims (encodeClaims c ++ r) = some (c, r) := by
  obtain ⟨fs, e⟩ := c
  simp [encodeClaims, decodeClaims, List.append_assoc, decNat_encNat,
    decPairs_encPairs]

theorem jwtVerify_sign_ok (c : Claims) (secret : String) (now : Nat)
    (hs : secret ≠ "") (hx : now < c.exp) :
    jwtVerify (jwtSign c secret) secret now = .ok c := by
  have hd : (jwtSign c secret).data = encodeClaims c ++ secret.data := rfl
  rw [jwtVerify, if_neg hs, hd, decodeClaims_encodeClaims]
  simp [hx]

theorem jwtVerify_sign_wrong (c : Claims) (s s2 : String) (now : Nat)
    (hs : s ≠ "") (hne : s2 ≠ s) :
    jwtVerify (jwtSign c s2) s now = .error .jsonWebTokenError := by
  have hd : (jwtSign c s2).data = encodeClaims c ++ s2.data := rfl
  rw [jwtVerify, if_neg hs, hd, decodeClaims_encodeClaims]
  have hdne : s2.data ≠ s.data := fun hh => hne (string_data_inj hh)
  simp [hdne]

theorem jwtVerify_sign_expired (c : Claims) (s : String) (now : Nat)
    (hs : s ≠ "") (hx : c.exp ≤ now) :
    jwtVerify (jwtSign c s) s now = .error .tokenExpiredError := by
  have hd : (jwtSign c s).data = encodeClaims c ++ s.data := rfl
  rw [jwtVerify, if_neg hs, hd, decodeClaims_encodeClaims]
  simp [Nat.not_lt.mpr hx]

theorem jwtVerify_empty_secret (t : String) (now : Nat) :
    jwtVerify t "" now =
      .error (.otherError "secret or private key must be provided") := rfl

theorem stripBearer_bearer_append (t : String) :
    stripBearer ("Bearer " ++ t) = t := by
  show (⟨removeFirst "Bearer ".data ("Bearer ".data ++ t.data)⟩ : String) = t
  rw [removeFirst_head_occurrence _ _ (by decide)]

theorem bearer_append_ne_empty (t : String) : ("Bearer " ++ t) ≠ "" := by
  intro h
  have h2 : ("Bearer " ++ t).data.length = 0 := by rw [h]; rfl
  rw [data_append, List.length_append] at h2
  have h3 : "Bearer ".data.length = 7 := rfl
  omega

theorem encNat_ne_nil (n : Nat) : encNat n ≠ [] := by
  cases n <;> simp [encNat]

theorem jwtSign_ne_empty (c : Claims) (s : String) : jwtSign c s ≠ "" := by
  intro h
  have h3 : encodeClaims c ++ s.data = [] := congrArg String.data h
  simp [encodeClaims, encNat_ne_nil] at h3

theorem authMiddleware_some_verify (h : String)
    (verify : String → Except VerifyError Claims) (hne : h ≠ "")
    (ht : stripBearer h ≠ "") :
    authMiddleware (some h) verify = applyVerify (verify (stripBearer h)) := by
  simp [authMiddleware, hne, ht]

theorem bearer_data_eq : "Bearer ".data = bearerL := rfl

theorem bearer_prefix_forces_nil (z y : List Char)
    (hz : bearerL.isPrefixOf z = false)
    (hp : bearerL.isPrefixOf (z ++ bearerL ++ y) = true) :
    z = [] := by
  rw [show bearerL = ['B', 'e', 'a', 'r', 'e', 'r', ' '] from rfl] at hz hp
  rcases z with _ | ⟨a, _ | ⟨b, _ | ⟨c, _ | ⟨d, _ | ⟨e, _ | ⟨f, zs⟩⟩⟩⟩⟩⟩
  · rfl
  · exfalso; simp [List.isPrefixOf] at hp
  · exfalso; simp [List.isPrefixOf] at hp
  · exfalso; simp [List.isPrefixOf] at hp
  · exfalso; simp [List.isPrefixOf] at hp
  · exfalso; simp [List.isPrefixOf] at hp
  · exfalso
    rcases zs with _ | ⟨g, zs2⟩
    · simp [List.isPrefixOf] at hp
    · simp [List.isPrefixOf] at hp hz
      obtain ⟨h1, h2, h3, h4, h5, h6, h7⟩ := hp
      exact hz h1 h2 h3 h4 h5 h6 h7

theorem removeFirst_mid (x y : List Char)
    (hx : hasSubstr bearerL x = false) :
    removeFirst bearerL (x ++ bearerL ++ y) = x ++ y := by
  induction x with
  | nil => simpa using removeFirst_head_occurrence bearerL y (by decide)
  | cons c xs ih =>
    rw [hasSubstr, Bool.or_eq_false_iff] at hx
    have hstep : (c :: xs) ++ bearerL ++ y = c :: (xs ++ bearerL ++ y) := by
      simp
    have hnp : bearerL.isPrefixOf (c :: (xs ++ bearerL ++ y)) = false := by
      cases hcase : bearerL.isPrefixOf (c :: (xs ++ bearerL ++ y)) with
      | false => rfl
      | true =>
        have h2 := bearer_prefix_forces_nil (c :: xs) y hx.1 (by rw [hstep]; exact hcase)
        exact absurd h2 (List.cons_ne_nil _ _)
    rw [hstep, removeFirst, if_neg (by simp only [hnp]; exact Bool.false_ne_true)]
    rw [ih hx.2]
    simp

theorem stripBearer_mid (x y : String)
    (hx : hasSubstr bearerL x.data = false) :
    stripBearer (x ++ "Bearer " ++ y) = x ++ y := by
  show (⟨removeFirst "Bearer ".data (x.data ++ "Bearer ".data ++ y.data)⟩ : String) = x ++ y
  rw [bearer_data_eq, removeFirst_mid x.data y.data hx]
  rfl

theorem stripBearer_of_not_contains (h : String)
    (hsub : hasSubstr bearerL h.data = false) : stripBearer h = h := by
  show (⟨removeFirst "Bearer ".data h.data⟩ : String) = h
  rw [bearer_data_eq, removeFirst_of_not_contains _ _ hsub]

theorem applyVerify_not_malformed (r : Except VerifyError Claims) :
    (applyVerify r).response ≠ some (401, "Access denied. Invalid token format.") := by
  rcases r with e | c
  · rcases e with _ | _ | m <;> simp [applyVerify]
  · simp [applyVerify]

theorem applyVerify_shape (r : Except VerifyError Claims) :
    (∃ c, applyVerify r = ⟨none, some c, true⟩) ∨
    (∃ s m, applyVerify r = ⟨some (s, m), none, false⟩) := by
  rcases r with e | c
  · rcases e with _ | _ | m
    · exact Or.inr ⟨401, _, rfl⟩
    · exact Or.inr ⟨401, _, rfl⟩
    · exact Or.inr ⟨500, _, rfl⟩
  · exact Or.inl ⟨c, rfl⟩

theorem authFull_bearer_token (t secret : String) (now : Nat) (ht : t ≠ "") :
    authFull (some ("Bearer " ++ t)) secret now =
      applyVerify (jwtVerify t secret now) := by
  rw [authFull, authMiddleware_some_verify _ _ (bearer_append_ne_empty t)
      (by rw [stripBearer_bearer_append]; exact ht), stripBearer_bearer_append]

theorem authFull_valid (c : Claims) (secret : String) (now : Nat)
    (hs : secret ≠ "") (hx : now < c.exp) :
    authFull (some ("Bearer " ++ jwtSign c secret)) secret now =
      ⟨none, some c, true⟩ := by
  rw [authFull_bearer_token _ _ _ (jwtSign_ne_empty c secret),
    jwtVerify_sign_ok c secret now hs hx]
  rfl

/-- C1: every request whose token was produced with the Guard's configured
signing secret and whose expires-at lies strictly in the future verifies
successfully: the decoded claims attached to the request context equal,
field-for-field, the claims the issuer encoded, and control is forwarded to
the next handler. -/
theorem guard_valid_token_success (c : Claims) (secret : String) (now : Nat)
    (hs : secret ≠ "") (hx : now < c.exp) :
    authFull (some ("Bearer " ++ jwtSign c secret)) secret now =
      ⟨none, some c, true⟩ :=
  authFull_valid c secret now hs hx

theorem guard_valid_token_success_witness :
    authFull (some ("Bearer " ++ jwtSign ⟨[("id", "u123")], 2⟩ "s")) "s" 1 =
      ⟨none, some ⟨[("id", "u123")], 2⟩, true⟩ :=
  guard_valid_token_success ⟨[("id", "u123")], 2⟩ "s" 1 (by decide) (by decide)

/-- C2: a request with no Authorization header is rejected with HTTP 401
"Access denied. No token provided.", before any token shape or signature
processing (the result is independent of the verification function). -/
theorem guard_missing_header_rejects
    (verify : String → Except VerifyError Claims) :
    authMiddleware none verify =
      ⟨some (401, "Access denied. No token provided."), none, false⟩ := rfl

/-- C3: a request whose Authorization header is exactly the string
"Bearer " is rejected with HTTP 401 "Access denied. Invalid token format.",
without attempting cryptographic verification (the result is independent of
the verification function). -/
theorem guard_bearer_only_header_malformed
    (verify : String → Except VerifyError Claims) :
    authMiddleware (some "Bearer ") verify =
      ⟨some (401, "Access denied. Invalid token format."), none, false⟩ := by
  have h1 : ("Bearer " : String) ≠ "" := by decide
  have h2 : stripBearer "Bearer " = "" := by decide
  simp [authMiddleware, h1, h2]

/-- C4: a non-empty Authorization header that does not contain the substring
"Bearer " is used verbatim as the token: cryptographic verification is
attempted on the full header value, and the request is never rejected with
the MalformedCredential response merely for lacking the prefix. -/
theorem guard_prefixless_header_attempted (h : String)
    (verify : String → Except VerifyError Claims)
    (hne : h ≠ "") (hsub : hasSubstr bearerL h.data = false) :
    stripBearer h = h ∧
    authMiddleware (some h) verify = applyVerify (verify h) ∧
    (authMiddleware (some h) verify).response ≠
      some (401, "Access denied. Invalid token format.") := by
  have h1 := stripBearer_of_not_contains h hsub
  have h2 : authMiddleware (some h) verify = applyVerify (verify h) := by
    rw [authMiddleware_some_verify h verify hne (by rw [h1]; exact hne), h1]
  exact ⟨h1, h2, by rw [h2]; exact applyVerify_not_malformed _⟩

theorem guard_prefixless_header_attempted_witness :
    stripBearer "tok" = "tok" ∧
    authMiddleware (some "tok")
        (fun _ : String => (Except.ok ⟨[], 5⟩ : Except VerifyError Claims)) =
      applyVerify
        ((fun _ : String => (Except.ok ⟨[], 5⟩ : Except VerifyError Claims)) "tok") ∧
    (authMiddleware (some "tok")
        (fun _ : String => (Except.ok ⟨[], 5⟩ : Except VerifyError Claims))).response ≠
      some (401, "Access denied. Invalid token format.") :=
  guard_prefixless_header_attempted "tok"
    (fun _ : String => (Except.ok ⟨[], 5⟩ : Except VerifyError Claims))
    (by decide) (by decide)

/-- C5: a token signed with a secret different from the Guard's configured
secret is rejected with HTTP 401 "Access denied. Invalid token.", regardless
of the claim contents of the token. -/
theorem guard_wrong_secret_invalid (c : Claims) (s s2 : String) (now : Nat)
    (hs : s ≠ "") (hne : s2 ≠ s) :
    authFull (some ("Bearer " ++ jwtSign c s2)) s now =
      ⟨some (401, "Access denied. Invalid token."), none, false⟩ := by
  rw [authFull_bearer_token _ _ _ (jwtSign_ne_empty c s2),
    jwtVerify_sign_wrong c s s2 now hs hne]
  rfl

theorem guard_wrong_secret_invalid_witness :
    authFull (some ("Bearer " ++ jwtSign ⟨[("id", "u1")], 9⟩ "T")) "S" 1 =
      ⟨some (401, "Access denied. Invalid token."), none, false⟩ :=
  guard_wrong_secret_invalid ⟨[("id", "u1")], 9⟩ "S" "T" 1 (by decide) (by decide)

/-- C6: a token signed with the correct secret whose expires-at claim is
strictly in the past at verification time is rejected with HTTP 401
"Access denied. Token expired.", an outcome distinct from the
InvalidCredential response. -/
theorem guard_expired_token_rejected (c : Claims) (s : String) (now : Nat)
    (hs : s ≠ "") (hx : c.exp < now) :
    authFull (some ("Bearer " ++ jwtSign c s)) s now =
      ⟨some (401, "Access denied. Token expired."), none, false⟩ ∧
    authFull (some ("Bearer " ++ jwtSign c s)) s now ≠
      ⟨some (401, "Access denied. Invalid token."), none, false⟩ := by
  have h1 : authFull (some ("Bearer " ++ jwtSign c s)) s now =
      ⟨some (401, "Access denied. Token expired."), none, false⟩ := by
    rw [authFull_bearer_token _ _ _ (jwtSign_ne_empty c s),
      jwtVerify_sign_expired c s now hs (Nat.le_of_lt hx)]
    rfl
  exact ⟨h1, by rw [h1]; decide⟩

theorem guard_expired_token_rejected_witness :
    authFull (some ("Bearer " ++ jwtSign ⟨[("id", "u1")], 2⟩ "S")) "S" 3 =
      ⟨some (401, "Access denied. Token expired."), none, false⟩ :=
  (guard_expired_token_rejected ⟨[("id", "u1")], 2⟩ "S" 3 (by decide) (by decide)).1

/-- C7: when the signing secret is misconfigured as empty/unset, so that
verification fails with an unexpected (non-signature, non-expiry) error, the
request is rejected with HTTP 500 "Server error during authentication." and
never with any 401 outcome. -/
theorem guard_empty_secret_internal_error (h : String) (now : Nat)
    (hne : h ≠ "") (ht : stripBearer h ≠ "") :
    authFull (some h) "" now =
      ⟨some (500, "Server error during authentication."), none, false⟩ ∧
    ∀ msg : String,
      authFull (some h) "" now ≠ ⟨some (401, msg), none, false⟩ := by
  have h1 : authFull (some h) "" now =
      ⟨some (500, "Server error during authentication."), none, false⟩ := by
    rw [authFull, authMiddleware_some_verify _ _ hne ht]
    rfl
  refine ⟨h1, fun msg hcon => ?_⟩
  rw [h1] at hcon
  simp at hcon

theorem guard_empty_secret_internal_error_witness :
    authFull (some "Bearer x") "" 0 =
      ⟨some (500, "Server error during authentication."), none, false⟩ :=
  (guard_empty_secret_internal_error "Bearer x" 0 (by decide) (by decide)).1

/-- C8: the guard is deterministic in its inputs (header value, secret,
verification time): two invocations with the same input yield the same
outcome, and verifying the same valid, unexpired token twice in succession
succeeds both times, with no hidden one-time-use state across calls. -/
theorem guard_deterministic_idempotent :
    (∀ (h : Option String) (secret : String) (now : Nat),
      (runTwice h secret now).1 = (runTwice h secret now).2) ∧
    (∀ (c : Claims) (secret : String) (now : Nat), secret ≠ "" → now < c.exp →
      (runTwice (some ("Bearer " ++ jwtSign c secret)) secret now).1 =
        ⟨none, some c, true⟩ ∧
      (runTwice (some ("Bearer " ++ jwtSign c secret)) secret now).2 =
        ⟨none, some c, true⟩) :=
  ⟨fun _ _ _ => rfl,
   fun c secret now hs hx =>
     ⟨authFull_valid c secret now hs hx, authFull_valid c secret now hs hx⟩⟩

theorem guard_deterministic_idempotent_witness :
    (runTwice (some ("Bearer " ++ jwtSign ⟨[("id", "u1")], 2⟩ "S")) "S" 1).1 =
      ⟨none, some ⟨[("id", "u1")], 2⟩, true⟩ ∧
    (runTwice (some ("Bearer " ++ jwtSign ⟨[("id", "u1")], 2⟩ "S")) "S" 1).2 =
      ⟨none, some ⟨[("id", "u1")], 2⟩, true⟩ :=
  guard_deterministic_idempotent.2 ⟨[("id", "u1")], 2⟩ "S" 1 (by decide) (by decide)

/-- C9: whenever the guard produces a rejection response the downstream
handler is never invoked and no identity is attached, and forwarding to the
next handler happens only on success, with the decoded identity attached and
no response written. -/
theorem guard_rejection_short_circuits (h : Option String)
    (verify : String → Except VerifyError Claims) :
    ((authMiddleware h verify).response.isSome = true →
      (authMiddleware h verify).nextCalled = false ∧
      (authMiddleware h verify).user = none) ∧
    ((authMiddleware h verify).nextCalled = true →
      (authMiddleware h verify).response = none ∧
      ∃ c, (authMiddleware h verify).user = some c) := by
  rcases h with _ | hs
  · exact ⟨fun _ => ⟨rfl, rfl⟩, fun hcon => by simp [authMiddleware] at hcon⟩
  · by_cases he : hs = ""
    · constructor
      · intro _
        constructor <;> simp [authMiddleware, he]
      · intro hcon
        simp [authMiddleware, he] at hcon
    · by_cases ht : stripBearer hs = ""
      · constructor
        · intro _
          constructor <;> simp [authMiddleware, he, ht]
        · intro hcon
          simp [authMiddleware, he, ht] at hcon
      · rw [authMiddleware_some_verify hs verify he ht]
        rcases applyVerify_shape (verify (stripBearer hs)) with ⟨c, hc⟩ | ⟨s, m, hm⟩
        · rw [hc]
          exact ⟨fun hcon => by simp at hcon, fun _ => ⟨rfl, ⟨c, rfl⟩⟩⟩
        · rw [hm]
          exact ⟨fun _ => ⟨rfl, rfl⟩, fun hcon => by simp at hcon⟩

theorem guard_rejection_short_circuits_witness :
    (authMiddleware none
        (fun _ : String =>
          (Except.error VerifyError.jsonWebTokenError :
            Except VerifyError Claims))).nextCalled = false ∧
    (authMiddleware none
        (fun _ : String =>
          (Except.error VerifyError.jsonWebTokenError :
            Except VerifyError Claims))).user = none :=
  (guard_rejection_short_circuits none
    (fun _ : String =>
      (Except.error VerifyError.jsonWebTokenError :
        Except VerifyError Claims))).1 (by decide)

/-- C10 (counterexample): the header "Bearer aBearer b" has the form
X ++ "Bearer " ++ Y with X = "Bearer a" non-empty and Y = "b", yet the token
attempted is "aBearer b" (the first occurrence is removed), not X ++ Y =
"Bearer ab", refuting the claim as stated for every decomposition. -/
theorem guard_strip_counterexample :
    ("Bearer a" : String) ≠ "" ∧
    stripBearer ("Bearer a" ++ "Bearer " ++ "b") = "aBearer b" ∧
    stripBearer ("Bearer a" ++ "Bearer " ++ "b") ≠ "Bearer a" ++ "b" :=
  ⟨by decide, by decide, by decide⟩

/-- C10 (amended): token extraction removes the first occurrence of
"Bearer " anywhere in the header: for every header X ++ "Bearer " ++ Y with
X non-empty and "Bearer " not occurring as a substring of X, the string
attempted as the token is X ++ Y, which differs from the raw header even
though the header does not start with "Bearer ". -/
theorem guard_strip_first_occurrence_amended (x y : String)
    (hx : x ≠ "") (hsub : hasSubstr bearerL x.data = false) :
    stripBearer (x ++ "Bearer " ++ y) = x ++ y ∧
    stripBearer (x ++ "Bearer " ++ y) ≠ x ++ "Bearer " ++ y := by
  have h1 := stripBearer_mid x y hsub
  refine ⟨h1, ?_⟩
  rw [h1]
  intro hcon
  have h2 := congrArg (fun s : String => s.data.length) hcon
  simp only [data_append, List.length_append] at h2
  have h7 : "Bearer ".data.length = 7 := rfl
  rw [h7] at h2
  omega

theorem guard_strip_first_occurrence_amended_witness :
    stripBearer ("z" ++ "Bearer " ++ "t") = "z" ++ "t" ∧
    stripBearer ("z" ++ "Bearer " ++ "t") ≠ "z" ++ "Bearer " ++ "t" :=
  guard_strip_first_occurrence_amended "z" "t" (by decide) (by decide)
